import Mathlib

/-!
Verification development for the financial-coach backend
(`app/src/coach`): a shallow embedding of the insight pipeline
(`services/insights.py`), the dashboard and insight endpoints
(`main.py`), and the data model (`models.py`), together with theorems
about period semantics, aggregate defaults, fallback behaviour,
persistence atomicity and endpoint contracts.

Monetary amounts are Python `Decimal` values at cent precision; they
are embedded as integer cent counts (`Int`), an exact fixed-point
model — sums and comparisons of `Decimal`s coincide with sums and
comparisons of their cent counts. The one division in the code (the
dashboard savings rate) is carried out in `Rat`. Calendar dates are
embedded as year(Int)/month/day records with proleptic Gregorian month
lengths, matching `datetime.date` arithmetic as used by the code
(`replace(day=1)` and subtraction of one day). `date.today()` is an
impure clock read; the embedding passes `today` explicitly.
-/

/-- Embedding of `datetime.date`: a calendar date. The year is an `Int`
so that `year - 1` is total; Python restricts years to 1..9999 but no
claim depends on that bound. -/
structure PyDate where
  year : Int
  month : Nat
  day : Nat
deriving DecidableEq, Repr

/-- Gregorian leap-year rule, as implemented by `calendar.isleap` /
`datetime`. -/
def isLeapYear (y : Int) : Bool :=
  y % 4 == 0 && (y % 100 != 0 || y % 400 == 0)

/-- Number of days in a month of a given year (Gregorian). -/
def daysInMonth (y : Int) (m : Nat) : Nat :=
  if m = 2 then (if isLeapYear y then 29 else 28)
  else if m = 4 ∨ m = 6 ∨ m = 9 ∨ m = 11 then 30
  else 31

/-- A structurally valid calendar date. -/
def validDate (d : PyDate) : Prop :=
  1 ≤ d.month ∧ d.month ≤ 12 ∧ 1 ≤ d.day ∧ d.day ≤ daysInMonth d.year d.month

instance (d : PyDate) : Decidable (validDate d) := by
  unfold validDate; infer_instance

/-- Date comparison `a <= b` (lexicographic on year, month, day),
matching comparison of `datetime.date` values and of SQL `DATE`s. -/
def dateLe (a b : PyDate) : Bool :=
  decide (a.year < b.year ∨ (a.year = b.year ∧
    (a.month < b.month ∨ (a.month = b.month ∧ a.day ≤ b.day))))

theorem dateLe_iff (a b : PyDate) :
    dateLe a b = true ↔
      (a.year < b.year ∨ (a.year = b.year ∧
        (a.month < b.month ∨ (a.month = b.month ∧ a.day ≤ b.day)))) := by
  simp [dateLe]

/-- `today.replace(day=1)` — first day of the month of `t`
(insights.py line 59, main.py line 190). -/
def startOfMonth (t : PyDate) : PyDate :=
  { t with day := 1 }

/-- `d - timedelta(days=1)`: the previous calendar day. -/
def subOneDay (d : PyDate) : PyDate :=
  if 1 < d.day then { d with day := d.day - 1 }
  else if 1 < d.month then ⟨d.year, d.month - 1, daysInMonth d.year (d.month - 1)⟩
  else ⟨d.year - 1, 12, 31⟩

/-- `last_month_end = start_of_month - timedelta(days=1)`
(insights.py line 60). -/
def lastMonthEnd (t : PyDate) : PyDate :=
  subOneDay (startOfMonth t)

/-- `last_month_start = last_month_end.replace(day=1)`
(insights.py line 61). -/
def lastMonthStart (t : PyDate) : PyDate :=
  { lastMonthEnd t with day := 1 }

/-- The (year, month) of the calendar month immediately before the
month of `t`. -/
def prevYearMonth (t : PyDate) : Int × Nat :=
  if t.month = 1 then (t.year - 1, 12) else (t.year, t.month - 1)

/-- `today.strftime("%B")` — the English month name
(insights.py line 108). -/
def monthName (m : Nat) : String :=
  if m = 1 then "January" else if m = 2 then "February"
  else if m = 3 then "March" else if m = 4 then "April"
  else if m = 5 then "May" else if m = 6 then "June"
  else if m = 7 then "July" else if m = 8 then "August"
  else if m = 9 then "September" else if m = 10 then "October"
  else if m = 11 then "November" else if m = 12 then "December"
  else ""

/-- Embedding of the `Transaction` ORM row (models.py lines 33-55).
The `transaction_type` column (values `credit` / `debit`) is declared in
the full model and documented in `agents/prompts.py` lines 20 and 117;
every query in src filters on it. `amount` is a `Decimal`, embedded as
its cent count. -/
structure Transaction where
  id_ : Nat
  user_id : Nat
  amount : Int
  merchant : String
  date : PyDate
  category : Option String
  is_subscription : Bool
  transaction_type : String
deriving DecidableEq, Repr

/-- Embedding of the `User` ORM row (models.py lines 11-30):
`financial_goals` is a nullable text column. -/
structure UserRec where
  id_ : Nat
  username : String
  financial_goals : Option String
deriving DecidableEq, Repr

/-- SQL `SELECT sum(...)`: `NULL` (here `none`) when no rows match,
otherwise the sum of the matched values. -/
def sqlSum (l : List Int) : Option Int :=
  if l.isEmpty then none else some l.sum

/-- Python `x or Decimal('0')` applied to a nullable sum
(insights.py lines 69 and 78, main.py lines 184-205): `None` is falsy,
and so is `Decimal('0')`; either way the result is the zero default. -/
def pyOrZero (x : Option Int) : Int :=
  match x with
  | none => 0
  | some v => if v = 0 then 0 else v

theorem pyOrZero_sqlSum (l : List Int) : pyOrZero (sqlSum l) = l.sum := by
  cases l with
  | nil => simp [sqlSum, pyOrZero]
  | cons a t =>
      simp only [sqlSum, List.isEmpty_cons, Bool.false_eq_true, if_false, pyOrZero]
      split <;> simp_all

/-- Row filter of the current-month spend query (insights.py lines
64-68): user, debit, `date >= start_of_month` — note: no upper bound on
the date. -/
def currentSpendFilter (uid : Nat) (t : PyDate) (tx : Transaction) : Bool :=
  tx.user_id == uid && tx.transaction_type == "debit" &&
    dateLe (startOfMonth t) tx.date

/-- `current_spend` (insights.py lines 63-69). -/
def currentSpend (txs : List Transaction) (uid : Nat) (t : PyDate) : Int :=
  pyOrZero (sqlSum ((txs.filter (currentSpendFilter uid t)).map (·.amount)))

/-- Row filter of the last-month spend query (insights.py lines 72-77):
user, debit, `last_month_start <= date <= last_month_end`. -/
def lastSpendFilter (uid : Nat) (t : PyDate) (tx : Transaction) : Bool :=
  tx.user_id == uid && tx.transaction_type == "debit" &&
    dateLe (lastMonthStart t) tx.date && dateLe tx.date (lastMonthEnd t)

/-- `last_spend` (insights.py lines 71-78). -/
def lastSpend (txs : List Transaction) (uid : Nat) (t : PyDate) : Int :=
  pyOrZero (sqlSum ((txs.filter (lastSpendFilter uid t)).map (·.amount)))

/-- Row filter of the top-category query (insights.py lines 83-88):
user, debit, `date >= start_of_month`, category not NULL. -/
def topCatFilter (uid : Nat) (t : PyDate) (tx : Transaction) : Bool :=
  tx.user_id == uid && tx.transaction_type == "debit" &&
    dateLe (startOfMonth t) tx.date && tx.category.isSome

/-- Distinct category labels of a row list, in order of first
appearance (the GROUP BY key set). -/
def distinctCats (l : List Transaction) : List String :=
  l.foldl (fun acc tx =>
    match tx.category with
    | some c => if acc.contains c then acc else acc ++ [c]
    | none => acc) []

/-- Summed amount of the rows carrying a given category label. -/
def catTotal (l : List Transaction) (c : String) : Int :=
  ((l.filter (fun tx => tx.category == some c)).map (·.amount)).sum

/-- The `GROUP BY category / sum(amount)` result rows. -/
def categoryTotals (l : List Transaction) : List (String × Int) :=
  (distinctCats l).map (fun c => (c, catTotal l c))

/-- `ORDER BY total DESC LIMIT 1` followed by `.first()` (insights.py
lines 81-93): the row with the maximum summed amount, `none` when there
are no rows. SQL leaves the order of equal totals unspecified; this
embedding keeps the earlier group on ties, and no theorem below depends
on the tie order. -/
def topRow (rows : List (String × Int)) : Option (String × Int) :=
  rows.foldl (fun best r =>
    match best with
    | none => some r
    | some b => if b.2 < r.2 then some r else some b) none

/-- `top_category` / `top_category_amount` with their `"N/A"` / 0
defaults (insights.py lines 93-95). -/
def topCategoryPair (txs : List Transaction) (uid : Nat) (t : PyDate) :
    String × Int :=
  match topRow (categoryTotals (txs.filter (topCatFilter uid t))) with
  | some r => r
  | none => ("N/A", 0)

/-- The metrics dict built by `_get_user_metrics` (insights.py lines
102-109). `current_month_spending` and friends are `float(...)` in the
code; cent-precision decimals in the ranges this app handles convert to
float exactly enough that their numeric identity is preserved, so they
stay cent counts here (their float string rendering is modelled
separately by `pyFloatStr`). `user_goals` is `user.financial_goals if user else
"No specific goals set."`, which is `None` when the user exists but has
no goal text — hence `Option String`. -/
structure Metrics where
  current_month_spending : Int
  last_month_spending : Int
  top_category : String
  top_category_amount : Int
  user_goals : Option String
  month_name : String
deriving DecidableEq, Repr

/-- `_get_user_metrics` (insights.py lines 54-109), with the clock read
`date.today()` passed explicitly as `t`. It always returns a populated
metrics dict — in particular a missing user does not fail the query;
it only makes `goals` the default sentence (line 100). -/
def getUserMetrics (txs : List Transaction) (users : List UserRec)
    (uid : Nat) (t : PyDate) : Metrics :=
  let pair := topCategoryPair txs uid t
  { current_month_spending := currentSpend txs uid t
    last_month_spending := lastSpend txs uid t
    top_category := pair.1
    top_category_amount := pair.2
    user_goals :=
      match users.find? (fun u => u.id_ == uid) with
      | some u => u.financial_goals
      | none => some "No specific goals set."
    month_name := monthName t.month }

/-- Python `str()` of a float obtained from a cent-precision `Decimal`
(the `float(...)` conversions in insights.py lines 103-106), applied
to the cent count. For cent-precision values of magnitude far below
2^45, CPython prints the shortest round-tripping decimal, which is the
decimal digits with trailing fractional zeros stripped but always at
least one fractional digit: `450.00 ↦ "450.0"`, `0 ↦ "0.0"`,
`120.50 ↦ "120.5"`, `33.25 ↦ "33.25"`. -/
def pyFloatStr (cents : Int) : String :=
  let ip := cents / 100
  let c := (cents % 100).toNat
  if c = 0 then toString ip ++ ".0"
  else if c % 10 = 0 then toString ip ++ "." ++ toString (c / 10)
  else toString ip ++ "." ++ (if c < 10 then "0" else "") ++ toString c

/-- The f-string of the fallback insight message (insights.py line
136): interpolates `current_month_spending` (a float), `month_name`
and `top_category`. -/
def fallbackMessage (m : Metrics) : String :=
  "You\x27ve spent $" ++ pyFloatStr m.current_month_spending ++
    " so far in " ++ m.month_name ++ ". Keep an eye on your " ++
    m.top_category ++ " spending!"

/-- Substring test: does `pat` occur contiguously in `s`? -/
def hasSubstr (s pat : String) : Bool :=
  (List.range (s.data.length + 1)).any
    (fun i => pat.data.isPrefixOf (s.data.drop i))

/-- A JSON value, the possible results of `json.loads` on the model
response (insights.py line 131). Objects are association lists with
distinct keys (Python dict). -/
inductive Json where
  | null
  | bool (b : Bool)
  | num (q : Rat)
  | str (s : String)
  | arr (elems : List Json)
  | obj (fields : List (String × Json))

/-- Outcome of the model call plus the fence-strip/parse steps inside
the `try` block of `_ask_ai_for_insight` (insights.py lines 120-131).
The generative model and `json.loads` are external: `transportError`
stands for `ainvoke` raising (timeout or transport failure),
`unparsable` for response text that fails `json.loads` after markdown
fences are stripped, `parsed j` for a successful parse yielding the
JSON value `j`. -/
inductive ModelOutcome where
  | transportError
  | unparsable
  | parsed (j : Json)

/-- Python exceptions that the pipeline can raise past
`_ask_ai_for_insight`. -/
inductive PyError where
  | keyError (k : String)
  | typeError
  | httpNotFound
deriving DecidableEq, Repr

/-- `item['title']` on an arbitrary Python value decoded from JSON:
key lookup on a dict, `KeyError` when the key is absent, `TypeError`
when subscripting a non-dict with a string key (string/list/number). -/
def pySubscript (j : Json) (k : String) : Except PyError Json :=
  match j with
  | .obj fs =>
      match fs.lookup k with
      | some v => .ok v
      | none => .error (.keyError k)
  | _ => .error .typeError

/-- `for item in insight_data` on an arbitrary decoded value: a list
iterates its elements, a dict its keys, a string its characters;
numbers, booleans and `None` raise `TypeError`. -/
def pyIterate (j : Json) : Except PyError (List Json) :=
  match j with
  | .arr xs => .ok xs
  | .obj fs => .ok (fs.map (fun f => Json.str f.1))
  | .str s => .ok (s.data.map (fun c => Json.str (String.mk [c])))
  | _ => .error .typeError

/-- The fallback value returned by the `except` branch of
`_ask_ai_for_insight` (insights.py lines 132-138): a one-element list
holding the deterministic trend insight. -/
def fallbackJson (m : Metrics) : Json :=
  .arr [.obj [("title", .str "Spending Update"),
              ("message", .str (fallbackMessage m)),
              ("type", .str "trend")]]

/-- `_ask_ai_for_insight` (insights.py lines 111-138): a successful
parse returns the decoded value unchanged (no shape validation); any
exception inside the `try` — transport failure or parse failure — is
caught and replaced by the fallback list. -/
def askAiForInsight (m : Metrics) (o : ModelOutcome) : Json :=
  match o with
  | .parsed j => j
  | .transportError => fallbackJson m
  | .unparsable => fallbackJson m

/-- An `Insight(...)` constructor call from the persistence loop
(insights.py lines 41-46): the field values are whatever
`item['title']` / `item['message']` / `item['type']` produced. -/
structure DraftRow where
  user_id : Nat
  title : Json
  message : Json
  type : Json

/-- `generate_proactive_insights` (insights.py lines 23-52).
The `if not metrics` guard (line 31) is dead: `_get_user_metrics`
always returns a six-key dict, which is truthy. The loop over
`insight_data` iterates the decoded value and subscripts each item
with `title`, `message`, `type` in that order; any `TypeError` /
`KeyError` there propagates out of the run. Returns the built rows
(the subsequent `db.add` / `commit` persistence step is modelled
separately by `persistDrafts`). -/
def generateProactiveInsights (txs : List Transaction)
    (users : List UserRec) (uid : Nat) (t : PyDate) (o : ModelOutcome) :
    Except PyError (List DraftRow) := do
  let metrics := getUserMetrics txs users uid t
  let data := askAiForInsight metrics o
  let items ← pyIterate data
  items.mapM (fun item => do
    let ttl ← pySubscript item "title"
    let msg ← pySubscript item "message"
    let ty ← pySubscript item "type"
    pure ⟨uid, ttl, msg, ty⟩)

/-- The draft built from the fallback insight for user `uid`. -/
def fallbackDraft (uid : Nat) (m : Metrics) : DraftRow :=
  ⟨uid, .str "Spending Update", .str (fallbackMessage m), .str "trend"⟩

/-- Modelled from the spec: the persisted `Insight` row (spec section 3
and the schema listed in agents/prompts.py lines 27-35). The ORM class
itself is repository code outside src (src models.py predates it; every
query in main.py uses these columns): identifier, owning user, title,
message, type, creation timestamp (server-assigned), read flag
(defaults unread). Timestamps are abstracted to `Nat`. -/
structure InsightRow where
  id_ : Nat
  user_id : Nat
  title : String
  message : String
  type : String
  created_at : Nat
  is_read : Bool
deriving DecidableEq, Repr

/-- A draft insight (title, message, type) headed for the store. -/
structure Draft where
  title : String
  message : String
  type : String
deriving DecidableEq, Repr

/-- A row staged by `db.add(insight)` but not yet committed: it has no
server-assigned id or timestamp yet. -/
structure PendingRow where
  user_id : Nat
  title : String
  message : String
  type : String
deriving DecidableEq, Repr

/-- Modelled from the spec: the relational store unit of work (the
SQLAlchemy `AsyncSession` used by insights.py, external to src).
`visible` is what other readers of the store see (committed rows);
`pending` is staged by `add` and becomes visible only at `commit`. -/
structure UnitOfWork where
  visible : List InsightRow
  pending : List PendingRow
deriving DecidableEq, Repr

/-- `db.add(insight)` (insights.py line 47): stages a row. -/
def addInsight (w : UnitOfWork) (p : PendingRow) : UnitOfWork :=
  ⟨w.visible, w.pending ++ [p]⟩

/-- Server-side materialization at commit: assign the next primary key
and the server-default creation timestamp, with `is_read` defaulting to
false. -/
def materialize (p : PendingRow) (iid ts : Nat) : InsightRow :=
  ⟨iid, p.user_id, p.title, p.message, p.type, ts, false⟩

/-- Materialize every staged row, assigning sequential primary keys
starting at `nid` and the shared server timestamp `ts`. -/
def materializeAll (ps : List PendingRow) (ts nid : Nat) :
    List InsightRow :=
  match ps with
  | [] => []
  | p :: rest => materialize p nid ts :: materializeAll rest ts (nid + 1)

/-- Modelled from the spec: `await db.commit()` (insights.py line 50)
under the store atomicity contract (spec sections 4.4 and 7) — on
success every staged row becomes visible at once; on failure the
transaction rolls back and none does. `ok` is the externally decided
commit outcome, `ts` the server clock, `nid` the next primary key. -/
def commitUnitOfWork (w : UnitOfWork) (ok : Bool) (ts nid : Nat) :
    UnitOfWork :=
  if ok then ⟨w.visible ++ materializeAll w.pending ts nid, []⟩
  else ⟨w.visible, []⟩

/-- The persistence step of `generate_proactive_insights` (insights.py
lines 39-50): stage one row per draft, then a single commit. There is
no commit inside the loop. -/
def persistDrafts (w : UnitOfWork) (uid : Nat) (drafts : List Draft)
    (ok : Bool) (ts nid : Nat) : UnitOfWork :=
  commitUnitOfWork
    (drafts.foldl (fun acc d => addInsight acc ⟨uid, d.title, d.message, d.type⟩) w)
    ok ts nid

/-- Output order respects `ORDER BY created_at DESC`: creation
timestamps are non-increasing along the list. -/
def createdDesc (l : List InsightRow) : Prop :=
  l.Pairwise (fun a b => b.created_at ≤ a.created_at)

instance (l : List InsightRow) : Decidable (createdDesc l) := by
  unfold createdDesc; infer_instance

/-- Ties in `created_at` come in descending identifier order. -/
def tieIdDesc (l : List InsightRow) : Prop :=
  l.Pairwise (fun a b => a.created_at = b.created_at → b.id_ < a.id_)

instance (l : List InsightRow) : Decidable (tieIdDesc l) := by
  unfold tieIdDesc; infer_instance

/-- The result relation of the `/api/insights` endpoint (main.py lines
339-352): `SELECT ... WHERE user_id = 1 ORDER BY created_at DESC
LIMIT 5`. SQL fixes the order only up to ties in `created_at`, so the
endpoint result is any prefix of length at most 5 of some permutation
of the user-1 rows that is sorted by `created_at` descending. -/
def validGetInsights (db out : List InsightRow) : Prop :=
  ∃ full : List InsightRow,
    full.Perm (db.filter (fun i => i.user_id == 1)) ∧
    createdDesc full ∧ out = full.take 5

/-- In-place `insight.is_read = True` on the row fetched by
`.scalars().first()`: sets the flag on the first row with the given
identifier, leaving the rest of the store unchanged. -/
def setReadFirst : List InsightRow → Nat → List InsightRow
  | [], _ => []
  | i :: rest, iid =>
      if i.id_ == iid then { i with is_read := true } :: rest
      else i :: setReadFirst rest iid

/-- `mark_insight_as_read` (main.py lines 377-391): select the insight
by id; raise HTTP 404 when absent; otherwise set `is_read` and commit.
Returns the store after the call. -/
def markInsightAsRead (db : List InsightRow) (iid : Nat) :
    Except PyError (List InsightRow) :=
  match db.find? (fun i => i.id_ == iid) with
  | none => .error .httpNotFound
  | some _ => .ok (setReadFirst db iid)

/-- `monthly_income` of the dashboard summary (main.py lines 200-205):
sum of user-1 credits dated on or after the first of the month, with
the `or 0` default. -/
def monthlyIncome (txs : List Transaction) (t : PyDate) : Int :=
  pyOrZero (sqlSum ((txs.filter (fun tx =>
    tx.user_id == 1 && tx.transaction_type == "credit" &&
      dateLe (startOfMonth t) tx.date)).map (·.amount)))

/-- `monthly_spending` of the dashboard summary (main.py lines
192-197). -/
def monthlySpending (txs : List Transaction) (t : PyDate) : Int :=
  pyOrZero (sqlSum ((txs.filter (fun tx =>
    tx.user_id == 1 && tx.transaction_type == "debit" &&
      dateLe (startOfMonth t) tx.date)).map (·.amount)))

/-- Division instrumented against a zero divisor: `none` exactly when
the divisor is zero. -/
def checkedDiv (a b : Rat) : Option Rat :=
  if b = 0 then none else some (a / b)

/-- The savings-rate computation of `get_dashboard_summary` (main.py
lines 207-209), with its division routed through `checkedDiv`:
`savings_rate = 0`, overwritten by
`((monthly_income - monthly_spending) / monthly_income) * 100` only
under the guard `monthly_income > 0`. -/
def savingsRateChecked (txs : List Transaction) (t : PyDate) :
    Option Rat :=
  if 0 < monthlyIncome txs t then
    (checkedDiv ((monthlyIncome txs t : Rat) - (monthlySpending txs t : Rat))
      (monthlyIncome txs t : Rat)).map (fun r => r * 100)
  else some 0

/-- Restatement of the claimed current-period semantics (spec section
4.2): sum of the user debits dated in the closed interval from the
first of the month of `t` through `t` itself. Compared against
`currentSpend`, which is what the code computes. -/
def currentSpendClaimed (txs : List Transaction) (uid : Nat)
    (t : PyDate) : Int :=
  ((txs.filter (fun tx =>
    tx.user_id == uid && tx.transaction_type == "debit" &&
      dateLe (startOfMonth t) tx.date && dateLe tx.date t)).map
        (·.amount)).sum

/-- Restatement of the claimed prior-period semantics (spec section
4.2): sum of the user debits dated in the calendar month immediately
before the month of `t`. Compared against `lastSpend`. -/
def priorCalendarMonthSpend (txs : List Transaction) (uid : Nat)
    (t : PyDate) : Int :=
  ((txs.filter (fun tx =>
    tx.user_id == uid && tx.transaction_type == "debit" &&
      tx.date.year == (prevYearMonth t).1 &&
      tx.date.month == (prevYearMonth t).2)).map (·.amount)).sum

/-! ### Concrete data for witnesses and counterexamples -/

/-- The date 2026-03-10: a concrete `today`. -/
def day0 : PyDate := ⟨2026, 3, 10⟩

/-- Prior-month debit: 300.00 (30000 cents) on Housing, 2026-02-10. -/
def txFeb : Transaction :=
  ⟨1, 1, 30000, "Rent Co", ⟨2026, 2, 10⟩, some "Housing", false, "debit"⟩

/-- Current-month debit: 120.00 on Food, 2026-03-02. -/
def txFood : Transaction :=
  ⟨2, 1, 12000, "Grocer", ⟨2026, 3, 2⟩, some "Food", false, "debit"⟩

/-- Current-month debit: 110.00 on Transport, 2026-03-03. -/
def txBus : Transaction :=
  ⟨3, 1, 11000, "Bus Co", ⟨2026, 3, 3⟩, some "Transport", false, "debit"⟩

/-- Current-month debit: 110.00 on Shopping, 2026-03-04. -/
def txShop : Transaction :=
  ⟨4, 1, 11000, "Shop", ⟨2026, 3, 4⟩, some "Shopping", false, "debit"⟩

/-- Current-month debit: 110.00 on Utilities, 2026-03-05. -/
def txUtil : Transaction :=
  ⟨5, 1, 11000, "Power Co", ⟨2026, 3, 5⟩, some "Utilities", false, "debit"⟩

/-- The end-to-end scenario ledger of spec section 8: current spend
450.00 with top category Food at 120.00, prior spend 300.00. -/
def scenarioTxs : List Transaction := [txFeb, txFood, txBus, txShop, txUtil]

/-- The scenario user with the goal text of spec section 8. -/
def scenarioUsers : List UserRec :=
  [⟨1, "demo_user", some "Save $3000 in 10 months"⟩]

/-- A debit dated 2026-03-20 — strictly after `day0` but in the same
calendar month. -/
def txFuture : Transaction :=
  ⟨9, 1, 5000, "Preorder", ⟨2026, 3, 20⟩, some "Shopping", false, "debit"⟩

/-! ### C10 — dashboard savings-rate division guard -/

/-- C10: the dashboard summary divides by the current month's summed
credit amount only under the strict-positivity guard, and yields 0
otherwise; routed through `checkedDiv`, the computation never hits a
zero divisor. -/
theorem savings_rate_division_guarded (txs : List Transaction) (t : PyDate) :
    (savingsRateChecked txs t).isSome = true ∧
      (¬ 0 < monthlyIncome txs t → savingsRateChecked txs t = some 0) := by
  constructor
  · by_cases h : 0 < monthlyIncome txs t
    · have h0 : (monthlyIncome txs t : Rat) ≠ 0 :=
        Int.cast_ne_zero.mpr (ne_of_gt h)
      simp [savingsRateChecked, h, checkedDiv, h0]
    · simp [savingsRateChecked, h]
  · intro h
    simp [savingsRateChecked, h]

/-- Witness: on the empty ledger the monthly income is zero, so the
savings rate is the guarded default 0; on the scenario ledger the
computation is defined. -/
theorem savings_rate_division_guarded_witness :
    savingsRateChecked [] day0 = some 0 ∧
      (savingsRateChecked scenarioTxs day0).isSome = true :=
  ⟨(savings_rate_division_guarded [] day0).2 (by decide),
   (savings_rate_division_guarded scenarioTxs day0).1⟩

/-! ### C6 — defined defaults on empty aggregate reads -/

/-- C6: an aggregate sum with no matching rows returns the zero
default (never `NULL`), and the top-category query with no categorized
debit rows in the period yields the sentinel `"N/A"` with amount zero;
all three reads are total functions, so no error is possible. -/
theorem empty_aggregate_defaults (txs : List Transaction) (uid : Nat) (t : PyDate) :
    (txs.filter (currentSpendFilter uid t) = [] → currentSpend txs uid t = 0) ∧
    (txs.filter (lastSpendFilter uid t) = [] → lastSpend txs uid t = 0) ∧
    (txs.filter (topCatFilter uid t) = [] → topCategoryPair txs uid t = ("N/A", 0)) := by
  refine ⟨fun h => ?_, fun h => ?_, fun h => ?_⟩
  · simp [currentSpend, h, sqlSum, pyOrZero]
  · simp [lastSpend, h, sqlSum, pyOrZero]
  · simp [topCategoryPair, h, categoryTotals, distinctCats, topRow]

/-- Witness: the empty ledger matches no filter, so both sums are 0 and
the top category is the sentinel pair. -/
theorem empty_aggregate_defaults_witness :
    currentSpend [] 1 day0 = 0 ∧ lastSpend [] 1 day0 = 0 ∧
      topCategoryPair [] 1 day0 = ("N/A", 0) :=
  ⟨(empty_aggregate_defaults [] 1 day0).1 rfl,
   (empty_aggregate_defaults [] 1 day0).2.1 rfl,
   (empty_aggregate_defaults [] 1 day0).2.2 rfl⟩

/-! ### C5 — current-period upper bound -/

/-- C5 counterexample: the current-spend query has no upper date bound
(insights.py line 67 filters only `date >= start_of_month`), so a
debit dated strictly after `today` does contribute: with the single
transaction `txFuture` dated 2026-03-20 and today 2026-03-10, the code
computes 5000 cents while the claimed interval sum is 0. -/
theorem current_spend_counts_future_dates :
    currentSpend [txFuture] 1 day0 = 5000 ∧
      currentSpendClaimed [txFuture] 1 day0 = 0 ∧
      dateLe txFuture.date day0 = false := by
  refine ⟨by decide, by decide, by decide⟩

/-- C5 amended: `current_spend` sums the user's debits dated on or
after the first of today's month with no upper bound; it agrees with
the claimed closed-interval sum exactly on ledgers with no transaction
dated after today. -/
theorem current_spend_eq_claimed_without_future (txs : List Transaction)
    (uid : Nat) (t : PyDate) (h : ∀ tx ∈ txs, dateLe tx.date t = true) :
    currentSpend txs uid t = currentSpendClaimed txs uid t := by
  unfold currentSpend currentSpendClaimed
  rw [pyOrZero_sqlSum]
  congr 1
  congr 1
  apply List.filter_congr
  intro tx hm
  unfold currentSpendFilter
  rw [h tx hm, Bool.and_true]

/-- Witness: on the scenario ledger (no future-dated rows) the code's
sum and the claimed interval sum agree at 45000 cents. -/
theorem current_spend_eq_claimed_witness :
    currentSpend scenarioTxs 1 day0 = currentSpendClaimed scenarioTxs 1 day0 ∧
      currentSpend scenarioTxs 1 day0 = 45000 :=
  ⟨current_spend_eq_claimed_without_future scenarioTxs 1 day0 (by decide),
   by decide⟩

/-! ### C4 — prior period is the full previous calendar month -/

theorem daysInMonth_twelve (y : Int) : daysInMonth y 12 = 31 := by
  norm_num [daysInMonth]

theorem lastMonth_start_end (t : PyDate) (ht : validDate t) :
    lastMonthStart t = ⟨(prevYearMonth t).1, (prevYearMonth t).2, 1⟩ ∧
      lastMonthEnd t = ⟨(prevYearMonth t).1, (prevYearMonth t).2,
        daysInMonth (prevYearMonth t).1 (prevYearMonth t).2⟩ := by
  obtain ⟨h1, h2, _, _⟩ := ht
  by_cases hm : t.month = 1
  · simp [lastMonthStart, lastMonthEnd, startOfMonth, subOneDay,
      prevYearMonth, hm, daysInMonth_twelve]
  · have hm2 : 1 < t.month := by omega
    simp [lastMonthStart, lastMonthEnd, startOfMonth, subOneDay,
      prevYearMonth, hm, hm2]

theorem interval_iff_month {py : Int} {pm : Nat} (d : PyDate)
    (hd : validDate d) :
    ((dateLe ⟨py, pm, 1⟩ d && dateLe d ⟨py, pm, daysInMonth py pm⟩) = true) ↔
      (d.year = py ∧ d.month = pm) := by
  obtain ⟨hd1, hd2, hd3, hd4⟩ := hd
  simp only [Bool.and_eq_true, dateLe_iff]
  constructor
  · rintro ⟨ha, hb⟩
    have hy : d.year = py := by omega
    subst hy
    have hmth : d.month = pm := by omega
    exact ⟨rfl, hmth⟩
  · rintro ⟨hy, hmth⟩
    subst hy; subst hmth
    refine ⟨?_, ?_⟩ <;> omega

/-- C4: for every valid `today` and every ledger whose dates are valid,
the prior-period spend computed by the code (`last_month_start` /
`last_month_end` bounds) is exactly the sum of the user's debits over
the full calendar month immediately before today's month — the bounds
are its first and last day — independently of today's day-of-month. -/
theorem prior_period_is_previous_calendar_month (t : PyDate)
    (txs : List Transaction) (uid : Nat) (ht : validDate t)
    (htx : ∀ tx ∈ txs, validDate tx.date) :
    lastSpend txs uid t = priorCalendarMonthSpend txs uid t ∧
      lastMonthStart t = ⟨(prevYearMonth t).1, (prevYearMonth t).2, 1⟩ ∧
      lastMonthEnd t = ⟨(prevYearMonth t).1, (prevYearMonth t).2,
        daysInMonth (prevYearMonth t).1 (prevYearMonth t).2⟩ := by
  have hse := lastMonth_start_end t ht
  refine ⟨?_, hse.1, hse.2⟩
  unfold lastSpend priorCalendarMonthSpend
  rw [pyOrZero_sqlSum]
  congr 1
  congr 1
  apply List.filter_congr
  intro tx hmem
  have hv := htx tx hmem
  unfold lastSpendFilter
  rw [hse.1, hse.2]
  rw [Bool.eq_iff_iff]
  simp only [Bool.and_eq_true, beq_iff_eq]
  rw [and_assoc, and_assoc, ← Bool.and_eq_true (dateLe _ _),
    interval_iff_month tx.date hv]
  tauto

/-- Witness: at today = 2026-03-10 the prior period is February 2026
and the scenario ledger's prior-period spend is the February rent. -/
theorem prior_period_witness :
    lastSpend scenarioTxs 1 day0 = priorCalendarMonthSpend scenarioTxs 1 day0 ∧
      lastSpend scenarioTxs 1 day0 = 30000 :=
  ⟨(prior_period_is_previous_calendar_month day0 scenarioTxs 1
      (by decide) (by decide)).1,
   by decide⟩

/-! ### C1 — fallback containment of model failures -/

theorem run_fallback_eq (txs : List Transaction) (users : List UserRec)
    (uid : Nat) (t : PyDate) :
    generateProactiveInsights txs users uid t .transportError =
        .ok [fallbackDraft uid (getUserMetrics txs users uid t)] ∧
      generateProactiveInsights txs users uid t .unparsable =
        .ok [fallbackDraft uid (getUserMetrics txs users uid t)] :=
  ⟨rfl, rfl⟩

/-- C1 counterexample: a model response that is valid JSON but whose
array element lacks the required `title` field is returned untouched by
`_ask_ai_for_insight` (the parse succeeded, so the `except` branch
never runs), and the persistence loop's `item['title']` then raises
`KeyError` out of the run — no fallback, and an error does propagate.
This falsifies the claim for the missing-required-field failure case. -/
theorem missing_field_raises_out_of_run :
    generateProactiveInsights scenarioTxs scenarioUsers 1 day0
        (.parsed (.arr [.obj []])) = .error (.keyError "title") := rfl

/-- C1 amended: only exceptions raised inside `_ask_ai_for_insight`
(transport error / timeout, or text that fails `json.loads`) are
absorbed into the deterministic single-insight fallback of type
`trend`; a successfully parsed JSON value is returned without shape
validation, so a non-array top level or an element missing a required
field escapes the generation run as an exception. -/
theorem model_failures_absorbed_into_fallback (txs : List Transaction)
    (users : List UserRec) (uid : Nat) (t : PyDate) (o : ModelOutcome)
    (h : o = ModelOutcome.transportError ∨ o = ModelOutcome.unparsable) :
    generateProactiveInsights txs users uid t o =
      .ok [fallbackDraft uid (getUserMetrics txs users uid t)] ∧
      (fallbackDraft uid (getUserMetrics txs users uid t)).type =
        Json.str "trend" := by
  rcases h with h | h <;> subst h
  · exact ⟨(run_fallback_eq txs users uid t).1, rfl⟩
  · exact ⟨(run_fallback_eq txs users uid t).2, rfl⟩

/-- Witness: a transport failure on the scenario ledger yields exactly
the one fallback draft. -/
theorem model_failures_absorbed_witness :
    generateProactiveInsights scenarioTxs scenarioUsers 1 day0
        .transportError =
      .ok [fallbackDraft 1 (getUserMetrics scenarioTxs scenarioUsers 1 day0)] :=
  (model_failures_absorbed_into_fallback scenarioTxs scenarioUsers 1 day0
    .transportError (Or.inl rfl)).1

/-! ### C2 — fallback message rendering -/

/-- C2 counterexample: in the spec's end-to-end scenario the snapshot's
current spend is 450.00 (45000 cents), yet the rendered fallback
message does not contain the digits `450.00` — the f-string
interpolates the `float` conversion, printed `450.0`; and with zero
spend the message does not read `$0 so far` — it reads `$0.0 so far`. -/
theorem fallback_message_renders_float_digits :
    (getUserMetrics scenarioTxs scenarioUsers 1 day0).current_month_spending
        = 45000 ∧
      hasSubstr (fallbackMessage (getUserMetrics scenarioTxs scenarioUsers 1
        day0)) "450.00" = false ∧
      hasSubstr (fallbackMessage (getUserMetrics scenarioTxs scenarioUsers 1
        day0)) "450.0" = true ∧
      (getUserMetrics [] [] 1 day0).current_month_spending = 0 ∧
      hasSubstr (fallbackMessage (getUserMetrics [] [] 1 day0))
        "$0 so far" = false ∧
      hasSubstr (fallbackMessage (getUserMetrics [] [] 1 day0))
        "$0.0 so far" = true := by
  refine ⟨by decide, by decide, by decide, by decide, by decide, by decide⟩

/-- C2 amended: the fallback message is a deterministic function of the
snapshot fields it interpolates — byte-identical for equal fields —
and it renders the snapshot's numbers through Python float `str`: the
scenario snapshot (current spend 450.00, top category Food, March)
renders exactly `$450.0`, and the zero-spend snapshot renders exactly
`$0.0 so far`. -/
theorem fallback_message_deterministic_rendering :
    (∀ m1 m2 : Metrics,
      m1.current_month_spending = m2.current_month_spending →
      m1.month_name = m2.month_name → m1.top_category = m2.top_category →
      fallbackMessage m1 = fallbackMessage m2) ∧
    fallbackMessage (getUserMetrics scenarioTxs scenarioUsers 1 day0) =
      "You\x27ve spent $450.0 so far in March. Keep an eye on your Food spending!" ∧
    fallbackMessage (getUserMetrics [] [] 1 day0) =
      "You\x27ve spent $0.0 so far in March. Keep an eye on your N/A spending!" := by
  refine ⟨fun m1 m2 h1 h2 h3 => ?_, by decide, by decide⟩
  unfold fallbackMessage
  rw [h1, h2, h3]

/-- Witness: the determinism clause applied to the scenario snapshot
against itself. -/
theorem fallback_message_deterministic_witness :
    fallbackMessage (getUserMetrics scenarioTxs scenarioUsers 1 day0) =
      fallbackMessage (getUserMetrics scenarioTxs scenarioUsers 1 day0) :=
  fallback_message_deterministic_rendering.1 _ _ rfl rfl rfl

/-! ### C3 — missing user does not abort the run -/

/-- C3 counterexample: with no user record 42 anywhere, the generation
run does not fail and does not short-circuit — the generator is still
invoked and (here, under a forced model failure) produces the fallback
insight; no NotFound is surfaced. -/
theorem missing_user_run_succeeds :
    (([] : List UserRec).find? (fun u => u.id_ == 42) = none) ∧
      generateProactiveInsights scenarioTxs [] 42 day0 .transportError =
        .ok [fallbackDraft 42 (getUserMetrics scenarioTxs [] 42 day0)] :=
  ⟨rfl, rfl⟩

/-- C3 amended: when the user identifier resolves to no user record,
`_get_user_metrics` still returns a full snapshot whose goals field is
the default sentence, and `generate_proactive_insights` proceeds to the
generator exactly as for an existing user — the run never fails on this
ground (the `if not metrics` guard is dead code). -/
theorem missing_user_gets_default_goals (txs : List Transaction)
    (users : List UserRec) (uid : Nat) (t : PyDate)
    (h : ∀ u ∈ users, u.id_ ≠ uid) :
    (getUserMetrics txs users uid t).user_goals =
        some "No specific goals set." ∧
      generateProactiveInsights txs users uid t .transportError =
        .ok [fallbackDraft uid (getUserMetrics txs users uid t)] := by
  refine ⟨?_, (run_fallback_eq txs users uid t).1⟩
  have hfind : users.find? (fun u => u.id_ == uid) = none := by
    rw [List.find?_eq_none]
    intro u hu
    simpa using h u hu
  simp [getUserMetrics, hfind]

/-- Witness: user 42 is absent from the scenario users, and the run
with a forced model failure still returns one insight. -/
theorem missing_user_witness :
    (getUserMetrics scenarioTxs scenarioUsers 42 day0).user_goals =
        some "No specific goals set." ∧
      generateProactiveInsights scenarioTxs scenarioUsers 42 day0
          .transportError =
        .ok [fallbackDraft 42 (getUserMetrics scenarioTxs scenarioUsers 42 day0)] :=
  missing_user_gets_default_goals scenarioTxs scenarioUsers 42 day0 (by decide)

/-! ### C7 — persistence is an atomic batch -/

theorem addAll_eq (drafts : List Draft) (w : UnitOfWork) (uid : Nat) :
    drafts.foldl (fun acc d => addInsight acc ⟨uid, d.title, d.message, d.type⟩) w =
      ⟨w.visible, w.pending ++ drafts.map (fun d => ⟨uid, d.title, d.message, d.type⟩)⟩ := by
  induction drafts generalizing w with
  | nil => simp
  | cons d rest ih =>
      rw [List.foldl_cons, ih]
      simp [addInsight]

theorem materializeAll_length (ps : List PendingRow) (ts nid : Nat) :
    (materializeAll ps ts nid).length = ps.length := by
  induction ps generalizing nid with
  | nil => rfl
  | cons p rest ih => simp [materializeAll, ih]

theorem materializeAll_mem (ps : List PendingRow) (ts nid : Nat) :
    ∀ r ∈ materializeAll ps ts nid, ∃ p ∈ ps, ∃ i, r = materialize p i ts := by
  induction ps generalizing nid with
  | nil => simp [materializeAll]
  | cons p rest ih =>
      intro r hr
      rcases List.mem_cons.mp hr with h | h
      · exact ⟨p, List.mem_cons_self p rest, nid, h⟩
      · obtain ⟨q, hq, i, rfl⟩ := ih (nid + 1) r h
        exact ⟨q, List.mem_cons_of_mem p hq, i, rfl⟩

/-- C7: persisting a batch of N drafts stages every row before the
single commit, so the visible store either gains exactly the N new
rows — each unread and carrying the server timestamp — or, when the
commit fails, gains nothing at all; no partial subset is ever
visible. -/
theorem persist_batch_atomic (w : UnitOfWork) (uid : Nat)
    (drafts : List Draft) (ok : Bool) (ts nid : Nat)
    (hw : w.pending = []) :
    (ok = false → (persistDrafts w uid drafts ok ts nid).visible = w.visible) ∧
    (ok = true → ∃ rows,
      (persistDrafts w uid drafts ok ts nid).visible = w.visible ++ rows ∧
      rows.length = drafts.length ∧
      ∀ r ∈ rows, r.is_read = false ∧ r.created_at = ts ∧ r.user_id = uid) := by
  constructor
  · intro hok
    simp [persistDrafts, addAll_eq, commitUnitOfWork, hok]
  · intro hok
    refine ⟨materializeAll (drafts.map (fun d => ⟨uid, d.title, d.message, d.type⟩)) ts nid,
      ?_, ?_, ?_⟩
    · simp [persistDrafts, addAll_eq, commitUnitOfWork, hok, hw]
    · simp [materializeAll_length]
    · intro r hr
      obtain ⟨p, hp, i, rfl⟩ := materializeAll_mem _ ts nid r hr
      obtain ⟨d, _, rfl⟩ := List.mem_map.mp hp
      exact ⟨rfl, rfl, rfl⟩

/-- Witness: a failed commit of a one-draft batch leaves the store
exactly as it was. -/
theorem persist_batch_atomic_witness :
    (persistDrafts ⟨[], []⟩ 1 [⟨"Spending Update", "msg", "trend"⟩]
        false 7 1).visible = (⟨[], []⟩ : UnitOfWork).visible :=
  (persist_batch_atomic ⟨[], []⟩ 1 [⟨"Spending Update", "msg", "trend"⟩]
    false 7 1 rfl).1 rfl

/-! ### C8 — insight listing order and limit -/

/-- An insight of user 1 created at tick 100, identifier 1. -/
def row1 : InsightRow := ⟨1, 1, "Tip A", "msg a", "trend", 100, false⟩

/-- An insight of user 1 created at the same tick 100, identifier 2. -/
def row2 : InsightRow := ⟨2, 1, "Tip B", "msg b", "alert", 100, false⟩

/-- C8 counterexample: the endpoint's query orders only by
`created_at DESC` (main.py line 348) with no secondary key, so on a
`created_at` tie a result in ascending identifier order is a valid
output of the query — the claimed identifier-descending tie-break does
not hold. -/
theorem insights_tie_order_not_id_desc :
    validGetInsights [row1, row2] [row1, row2] ∧ ¬ tieIdDesc [row1, row2] := by
  constructor
  · exact ⟨[row1, row2], by decide, by decide, rfl⟩
  · decide

/-- C8 amended: every valid output of the `/api/insights` query has at
most 5 rows, each owned by user 1 (never another user), in
non-increasing creation-timestamp order; the order among equal
timestamps is left unspecified by the code. -/
theorem insights_list_shape (db out : List InsightRow)
    (h : validGetInsights db out) :
    out.length ≤ 5 ∧ (∀ i ∈ out, i.user_id = 1) ∧ createdDesc out := by
  obtain ⟨full, hperm, hsort, rfl⟩ := h
  refine ⟨?_, ?_, ?_⟩
  · simp only [List.length_take]
    omega
  · intro i hi
    have hif : i ∈ full := List.mem_of_mem_take hi
    have h2 : i ∈ db.filter (fun j => j.user_id == 1) := hperm.mem_iff.mp hif
    have h3 := List.of_mem_filter h2
    simpa using h3
  · exact List.Pairwise.sublist (List.take_sublist 5 full) hsort

/-- Witness: the empty store yields the empty, trivially well-shaped
result. -/
theorem insights_list_shape_witness :
    ([] : List InsightRow).length ≤ 5 ∧
      (∀ i ∈ ([] : List InsightRow), i.user_id = 1) ∧
      createdDesc ([] : List InsightRow) :=
  insights_list_shape [] [] ⟨[], by decide, by decide, rfl⟩

/-! ### C9 — mark-read success, NotFound and idempotence -/

theorem setReadFirst_sets (db : List InsightRow) (iid : Nat)
    (hpk : db.Pairwise (fun a b => a.id_ ≠ b.id_)) :
    (∀ j ∈ setReadFirst db iid, j.id_ = iid → j.is_read = true) ∧
    (∀ j ∈ setReadFirst db iid, j.id_ ≠ iid → j ∈ db) := by
  induction db with
  | nil => simp [setReadFirst]
  | cons i rest ih =>
      have hpk' : rest.Pairwise (fun a b => a.id_ ≠ b.id_) :=
        List.Pairwise.of_cons hpk
      have hhead : ∀ b ∈ rest, i.id_ ≠ b.id_ :=
        fun b hb => List.rel_of_pairwise_cons hpk hb
      by_cases hid : i.id_ = iid
      · have hred : setReadFirst (i :: rest) iid =
            { i with is_read := true } :: rest := by
          simp [setReadFirst, hid]
        rw [hred]
        constructor
        · intro j hj hjid
          rcases List.mem_cons.mp hj with h | h
          · subst h; rfl
          · exact absurd (hid.trans hjid.symm) (hhead j h)
        · intro j hj hjid
          rcases List.mem_cons.mp hj with h | h
          · subst h; exact absurd hid (by simpa using hjid)
          · exact List.mem_cons_of_mem i h
      · have hred : setReadFirst (i :: rest) iid =
            i :: setReadFirst rest iid := by
          simp [setReadFirst, hid]
        rw [hred]
        constructor
        · intro j hj hjid
          rcases List.mem_cons.mp hj with h | h
          · subst h; exact absurd hjid hid
          · exact (ih hpk').1 j h hjid
        · intro j hj hjid
          rcases List.mem_cons.mp hj with h | h
          · subst h; exact List.mem_cons_self j rest
          · exact List.mem_cons_of_mem i ((ih hpk').2 j h hjid)

theorem setReadFirst_already_read (db : List InsightRow) (iid : Nat)
    (h : ∀ i ∈ db, i.id_ = iid → i.is_read = true) :
    setReadFirst db iid = db := by
  induction db with
  | nil => rfl
  | cons i rest ih =>
      by_cases hid : i.id_ = iid
      · have hread : i.is_read = true := h i (List.mem_cons_self i rest) hid
        obtain ⟨a, b, c, d, e, f, g⟩ := i
        simp only [setReadFirst]
        simp_all
      · simp [setReadFirst, hid,
          ih (fun j hj => h j (List.mem_cons_of_mem i hj))]

/-- C9: under primary-key uniqueness, `mark_insight_as_read` fails with
the 404 NotFound exactly when no insight carries the identifier; on an
existing insight it succeeds and the row with that identifier has its
read flag set while every other row is untouched; and when the insight
is already read the call succeeds and the store is byte-identical
(idempotence). -/
theorem mark_read_contract (db : List InsightRow) (iid : Nat)
    (hpk : db.Pairwise (fun a b => a.id_ ≠ b.id_)) :
    ((∀ i ∈ db, i.id_ ≠ iid) →
        markInsightAsRead db iid = .error .httpNotFound) ∧
    ((∃ i ∈ db, i.id_ = iid) →
        markInsightAsRead db iid = .ok (setReadFirst db iid) ∧
        (∀ j ∈ setReadFirst db iid, j.id_ = iid → j.is_read = true) ∧
        (∀ j ∈ setReadFirst db iid, j.id_ ≠ iid → j ∈ db)) ∧
    ((∃ i ∈ db, i.id_ = iid) →
        (∀ i ∈ db, i.id_ = iid → i.is_read = true) →
        markInsightAsRead db iid = .ok db) := by
  refine ⟨?_, ?_, ?_⟩
  · intro h
    have hfind : db.find? (fun i => i.id_ == iid) = none := by
      rw [List.find?_eq_none]
      intro i hi
      simpa using h i hi
    simp [markInsightAsRead, hfind]
  · intro hex
    have hsome : (db.find? (fun i => i.id_ == iid)).isSome := by
      rw [List.find?_isSome]
      obtain ⟨i, hi, hid⟩ := hex
      exact ⟨i, hi, by simpa using hid⟩
    cases hfind : db.find? (fun i => i.id_ == iid) with
    | none => rw [hfind] at hsome; simp at hsome
    | some v =>
        exact ⟨by simp [markInsightAsRead, hfind],
          (setReadFirst_sets db iid hpk).1, (setReadFirst_sets db iid hpk).2⟩
  · intro hex hall
    have hsome : (db.find? (fun i => i.id_ == iid)).isSome := by
      rw [List.find?_isSome]
      obtain ⟨i, hi, hid⟩ := hex
      exact ⟨i, hi, by simpa using hid⟩
    cases hfind : db.find? (fun i => i.id_ == iid) with
    | none => rw [hfind] at hsome; simp at hsome
    | some v =>
        simp [markInsightAsRead, hfind,
          setReadFirst_already_read db iid hall]

/-- An already-read insight of user 1, identifier 1. -/
def row3 : InsightRow := ⟨1, 1, "Tip", "msg", "trend", 5, true⟩

/-- Witness: marking the already-read insight 1 succeeds and leaves the
one-row store unchanged. -/
theorem mark_read_contract_witness :
    markInsightAsRead [row3] 1 = .ok [row3] :=
  (mark_read_contract [row3] 1 (by decide)).2.2 (by decide) (by decide)
